import Mathlib

/-!
# RTPScanner: the RTP sniffer of `src/rtp/rtp.go`

Shallow embedding of `RTP.Start`, `RTP.handleLayer`, `rtpPacket.UnmarshalNetwork`
and `rtpPacket.UnmarshalTransport`.

The Go code talks to collaborators that live outside the repository: the capture
source (`pcap`, `gopacket`), the RTP header decoder (`pion/rtp`), the storage sink,
`uuid.New` and `time.Now`.  They are parameters of the embedding (`Env`,
`StorageRTP`), so every theorem holds for every behaviour of the collaborators
unless a hypothesis says otherwise.  Effects are made explicit in `World`.
Console output (`fmt.Println`) is not part of the model.
-/

/-! ## Errors and `strconv.Atoi` -/

/-- The two failure kinds of a Go `*strconv.NumError`: invalid text, value out of range. -/
inductive NumErrKind where
  | invalid
  | outOfRange
deriving DecidableEq, Repr

/-- Go `error` values that travel through the sniffer. -/
inductive Error where
  | numError (func : String) (num : String) (kind : NumErrKind)
  | external (msg : String)
deriving DecidableEq, Repr

/-- Largest `uint64`. -/
def maxUint64 : Nat := 2 ^ 64 - 1

/-- The digit loop of `strconv.ParseUint` in base 10 with 64 bits: a byte that is not a
decimal digit is invalid, an accumulator that leaves `uint64` is out of range. -/
def strconv.ParseUint.loop : List Char → Nat → Except NumErrKind Nat
  | [], n => .ok n
  | c :: cs, n =>
    if 48 ≤ c.toNat ∧ c.toNat ≤ 57 then
      if n ≥ maxUint64 / 10 + 1 then .error .outOfRange
      else if n * 10 + (c.toNat - 48) > maxUint64 then .error .outOfRange
      else strconv.ParseUint.loop cs (n * 10 + (c.toNat - 48))
    else .error .invalid

/-- Base 10 `strconv.ParseUint`: the empty text is invalid. -/
def strconv.ParseUint (s : List Char) : Except NumErrKind Nat :=
  match s with
  | [] => .error .invalid
  | _ :: _ => strconv.ParseUint.loop s 0

/-- Go `strconv.Atoi` on a 64-bit platform: an optional sign, then decimal digits;
the value has to fit `int`. -/
def strconv.Atoi (s : String) : Except Error Int :=
  match s.toList with
  | [] => .error (.numError "Atoi" s .invalid)
  | c :: cs =>
    let neg : Bool := c = '-'
    let ds : List Char := if c = '-' ∨ c = '+' then cs else c :: cs
    match strconv.ParseUint ds with
    | .error k => .error (.numError "Atoi" s k)
    | .ok un =>
      if !neg ∧ un ≥ 2 ^ 63 then .error (.numError "Atoi" s .outOfRange)
      else if neg ∧ un > 2 ^ 63 then .error (.numError "Atoi" s .outOfRange)
      else .ok (if neg then -(un : Int) else (un : Int))

/-- Go conversion `uint16(port)` of an `int`: reduction modulo `2 ^ 16`. -/
def uint16 (port : Int) : Nat := (port % 65536).toNat

/-! ## Data model -/

/-- The header fields of pion `rtp.Packet` that the sniffer reads; the default is the
Go zero value `rtp.Packet{}`. -/
structure rtp.Packet where
  Version : Nat := 0
  PayloadType : Nat := 0
  SequenceNumber : Nat := 0
  Timestamp : Nat := 0
  Marker : Bool := false
  SSRC : Nat := 0
deriving DecidableEq, Repr

/-- A gopacket TCP layer: ports (`uint16`) and layer payload. -/
structure layers.TCP where
  SrcPort : Nat
  DstPort : Nat
  Payload : List Nat
deriving DecidableEq, Repr

/-- A gopacket UDP layer: ports (`uint16`) and layer payload. -/
structure layers.UDP where
  SrcPort : Nat
  DstPort : Nat
  Payload : List Nat
deriving DecidableEq, Repr

/-- A gopacket IPv4 layer: addresses as byte lists (`net.IP`) and layer payload. -/
structure layers.IPv4 where
  SrcIP : List Nat
  DstIP : List Nat
  Payload : List Nat
deriving DecidableEq, Repr

/-- A gopacket IPv6 layer: addresses as byte lists (`net.IP`) and layer payload. -/
structure layers.IPv6 where
  SrcIP : List Nat
  DstIP : List Nat
  Payload : List Nat
deriving DecidableEq, Repr

/-- A value of the interface `gopacket.Layer`, by dynamic type. -/
inductive gopacket.Layer where
  | TCP (l : layers.TCP)
  | UDP (l : layers.UDP)
  | IPv4 (l : layers.IPv4)
  | IPv6 (l : layers.IPv6)
  | other (payload : List Nat)
deriving DecidableEq, Repr

/-- The layer types `Start` asks a packet for. -/
inductive gopacket.LayerType where
  | LayerTypeTCP
  | LayerTypeUDP
  | LayerTypeIPv4
  | LayerTypeIPv6
deriving DecidableEq, Repr

/-- Method `LayerPayload` of a layer. -/
def gopacket.Layer.LayerPayload : gopacket.Layer → List Nat
  | .TCP l => l.Payload
  | .UDP l => l.Payload
  | .IPv4 l => l.Payload
  | .IPv6 l => l.Payload
  | .other payload => payload

/-- Whether a layer has the asked layer type. -/
def gopacket.Layer.hasType : gopacket.Layer → gopacket.LayerType → Bool
  | .TCP _, .LayerTypeTCP => true
  | .UDP _, .LayerTypeUDP => true
  | .IPv4 _, .LayerTypeIPv4 => true
  | .IPv6 _, .LayerTypeIPv6 => true
  | _, _ => false

/-- A captured frame: its decoded layers, outermost first. -/
structure gopacket.Packet where
  layers : List gopacket.Layer
deriving DecidableEq, Repr

/-- Method `Layer` of a packet: the first layer of the asked type, `none` for Go `nil`. -/
def gopacket.Packet.Layer (packet : gopacket.Packet) (t : gopacket.LayerType) :
    Option gopacket.Layer :=
  packet.layers.find? (fun l => l.hasType t)

/-- Timestamps embedded in a stored record; instants are clock readings. -/
structure storage.StandardTime where
  CreatedAt : Nat
  UpdatedAt : Nat
deriving DecidableEq, Repr

/-- The record handed to storage, with the fields set by `handleLayer`. -/
structure storage.RtpPacket where
  Id : String
  DstPort : Nat
  SrcPort : Nat
  DstIp : String
  SrcIp : String
  SequenceNumber : Nat
  Timestamp : Nat
  Marker : Bool
  Ssrc : Nat
  StandardTime : storage.StandardTime
deriving DecidableEq, Repr

/-- The struct `rtpPacket`; the default is the Go zero value `rtpPacket{}`. -/
structure rtpPacket where
  DstPort : Nat := 0
  SrcPort : Nat := 0
  DstIp : String := ""
  SrcIp : String := ""
  SequenceNumber : Nat := 0
  Timestamp : Nat := 0
  Marker : Bool := false
  SSRC : Nat := 0
deriving DecidableEq, Repr

/-- The capabilities the sniffer takes from libraries.
`Unmarshal p buf` is the decoder acting on the packet `p` through its pointer receiver:
it returns the packet as the call leaves it and the returned error.
`tcpPortString`, `udpPortString` and `ipString` are the `String` methods of
`layers.TCPPort`, `layers.UDPPort` and `net.IP`.
`uuid k` is the text of the identifier made by call number `k` of `uuid.New`,
`clock k` the instant returned by read number `k` of `time.Now`,
`OpenLive device` the error of `pcap.OpenLive`, `none` when the handle was opened. -/
structure Env where
  Unmarshal : rtp.Packet → List Nat → rtp.Packet × Option Error
  tcpPortString : Nat → String
  udpPortString : Nat → String
  ipString : List Nat → String
  uuid : Nat → String
  clock : Nat → Nat
  OpenLive : String → Option Error

/-- The interface `StorageRTP` of `dependencies.go` over a backend with states `σ`:
`CreateRtpPacket` takes the backend state and the record, and returns the new state and
the returned error. -/
structure StorageRTP (σ : Type) where
  CreateRtpPacket : σ → storage.RtpPacket → σ × Option Error

/-- The struct `RTP`. -/
structure RTP (σ : Type) where
  Storage : StorageRTP σ

/-- The acquisitions and releases of the capture handle; other uses of the handle
(`LinkType`, reading frames) are not recorded. -/
inductive HandleOp where
  | opened
  | released
deriving DecidableEq, Repr

/-- The effects of the sniffer: the backend state, the records handed to
`CreateRtpPacket` so far (oldest first), the number of `time.Now` reads and of `uuid.New`
calls so far, and the acquisitions and releases of the capture handle so far. -/
structure World (σ : Type) where
  store : σ
  created : List storage.RtpPacket
  clockReads : Nat
  uuidCalls : Nat
  handleOps : List HandleOp

/-! ## Operations -/

/-- Method `UnmarshalNetwork` of `rtpPacket` (rtp.go, lines 148-159): the IPv4 block runs
first, the IPv6 block second; the error is always `nil`. -/
def rtpPacket.UnmarshalNetwork (env : Env) (r : rtpPacket)
    (ipv4 : Option layers.IPv4) (ipv6 : Option layers.IPv6) : rtpPacket × Option Error :=
  let r : rtpPacket :=
    match ipv4 with
    | some h => { r with SrcIp := env.ipString h.SrcIP, DstIp := env.ipString h.DstIP }
    | none => r
  let r : rtpPacket :=
    match ipv6 with
    | some h => { r with SrcIp := env.ipString h.SrcIP, DstIp := env.ipString h.DstIP }
    | none => r
  (r, none)

/-- The two parses shared by the TCP and the UDP branch of `UnmarshalTransport`:
destination port first, then source port; a failed parse returns at once and keeps what
was already written. -/
def rtpPacket.parsePorts (r : rtpPacket) (dstText srcText : String) :
    rtpPacket × Option Error :=
  match strconv.Atoi dstText with
  | .error err => (r, some err)
  | .ok port =>
    let r : rtpPacket := { r with DstPort := uint16 port }
    match strconv.Atoi srcText with
    | .error err => (r, some err)
    | .ok port => ({ r with SrcPort := uint16 port }, none)

/-- Method `UnmarshalTransport` of `rtpPacket` (rtp.go, lines 162-199): a layer that is
neither TCP nor UDP leaves the packet as it is and returns `nil`. -/
def rtpPacket.UnmarshalTransport (env : Env) (r : rtpPacket) (layer : gopacket.Layer) :
    rtpPacket × Option Error :=
  match layer with
  | .TCP tcp => r.parsePorts (env.tcpPortString tcp.DstPort) (env.tcpPortString tcp.SrcPort)
  | .UDP udp => r.parsePorts (env.udpPortString udp.DstPort) (env.udpPortString udp.SrcPort)
  | _ => (r, none)

/-- The packet as the two decoder calls of `handleLayer` leave it (rtp.go, lines 89-97):
first the call on the empty buffer, then the call on the layer payload; neither returned
error changes the control flow. -/
def RTP.decoded (env : Env) (layer : gopacket.Layer) : rtp.Packet :=
  let p : rtp.Packet := {}
  let p := (env.Unmarshal p []).1
  (env.Unmarshal p layer.LayerPayload).1

/-- The record literal of `handleLayer` (rtp.go, lines 122-136): `uuid.New` is called
first, then `time.Now` once for `CreatedAt` and once more for `UpdatedAt`. -/
def RTP.pack {σ : Type} (env : Env) (rtpp : rtpPacket) (w : World σ) : storage.RtpPacket :=
  { Id := env.uuid w.uuidCalls
    DstPort := rtpp.DstPort
    SrcPort := rtpp.SrcPort
    DstIp := rtpp.DstIp
    SrcIp := rtpp.SrcIp
    SequenceNumber := rtpp.SequenceNumber
    Timestamp := rtpp.Timestamp
    Marker := rtpp.Marker
    Ssrc := rtpp.SSRC
    StandardTime :=
      { CreatedAt := env.clock w.clockReads
        UpdatedAt := env.clock (w.clockReads + 1) } }

/-- Method `handleLayer` of `RTP` (rtp.go, lines 86-145). -/
def RTP.handleLayer {σ : Type} (env : Env) (r : RTP σ) (layer : gopacket.Layer)
    (ipv4 : Option layers.IPv4) (ipv6 : Option layers.IPv6) (w : World σ) :
    World σ × Option Error :=
  let p := RTP.decoded env layer
  if p.Version = 2 ∧ p.PayloadType ≥ 96 ∧ p.PayloadType ≤ 100 then
    let rtpp : rtpPacket := {}
    match rtpp.UnmarshalTransport env layer with
    | (_, some err) => (w, some err)
    | (rtpp, none) =>
      match rtpp.UnmarshalNetwork env ipv4 ipv6 with
      | (_, some err) => (w, some err)
      | (rtpp, none) =>
        let rtpp : rtpPacket :=
          { rtpp with
            SequenceNumber := p.SequenceNumber
            Timestamp := p.Timestamp
            Marker := p.Marker
            SSRC := p.SSRC }
        let pack := RTP.pack env rtpp w
        let res := r.Storage.CreateRtpPacket w.store pack
        let w : World σ :=
          { w with
            store := res.1
            created := w.created ++ [pack]
            clockReads := w.clockReads + 2
            uuidCalls := w.uuidCalls + 1 }
        match res.2 with
        | some err => (w, some err)
        | none => (w, none)
  else (w, none)

/-- The type assertion of `Start` on the IPv4 layer of a packet. -/
def RTP.Start.ipv4 (packet : gopacket.Packet) : Option layers.IPv4 :=
  match packet.Layer .LayerTypeIPv4 with
  | some (.IPv4 l) => some l
  | _ => none

/-- The type assertion of `Start` on the IPv6 layer of a packet. -/
def RTP.Start.ipv6 (packet : gopacket.Packet) : Option layers.IPv6 :=
  match packet.Layer .LayerTypeIPv6 with
  | some (.IPv6 l) => some l
  | _ => none

/-- The body of the loop of `Start` for one packet (rtp.go, lines 49-79). -/
def RTP.Start.body {σ : Type} (env : Env) (r : RTP σ) (packet : gopacket.Packet)
    (w : World σ) : World σ × Option Error :=
  let tcp := packet.Layer .LayerTypeTCP
  let udp := packet.Layer .LayerTypeUDP
  let ipv4 := RTP.Start.ipv4 packet
  let ipv6 := RTP.Start.ipv6 packet
  match tcp with
  | some tcp => r.handleLayer env tcp ipv4 ipv6 w
  | none =>
    match udp with
    | some udp => r.handleLayer env udp ipv4 ipv6 w
    | none => (w, none)

/-- The loop of `Start` over the packets the source delivers before its channel is
closed: the first error ends the loop and is returned. -/
def RTP.Start.loop {σ : Type} (env : Env) (r : RTP σ) :
    List gopacket.Packet → World σ → World σ × Option Error
  | [], w => (w, none)
  | packet :: rest, w =>
    match RTP.Start.body env r packet w with
    | (w, some err) => (w, some err)
    | (w, none) => RTP.Start.loop env r rest w

/-- Method `Start` of `RTP` (rtp.go, lines 42-83); `packets` is what the packet source
yields until its channel is closed. -/
def RTP.Start {σ : Type} (env : Env) (r : RTP σ) (device : String)
    (packets : List gopacket.Packet) (w : World σ) : World σ × Option Error :=
  match env.OpenLive device with
  | some err => (w, some err)
  | none =>
    RTP.Start.loop env r packets { w with handleOps := w.handleOps ++ [HandleOp.opened] }

/-! ## Instances of the collaborators, used at concrete inputs -/

/-- The `String` method of gopacket `TCPPort` and `UDPPort` over a table of well-known
port names: a named port reads `number(name)`, any other port reads `number`. -/
def namedPortString (names : Nat → Option String) (a : Nat) : String :=
  match names a with
  | some name => toString a ++ "(" ++ name ++ ")"
  | none => toString a

/-- An excerpt of the table of IANA port names that gopacket ships, the same for TCP and
UDP: the names at the ports 53, 80, 5000, 5004 and 40000.  The table of gopacket has
thousands of entries more; what follows reads this excerpt at these five ports and at the
ports 40002 and 40004, which have no name in the table of gopacket either. -/
def ianaNames : Nat → Option String
  | 53 => some "domain"
  | 80 => some "http"
  | 5000 => some "commplex-main"
  | 5004 => some "avt-profile-1"
  | 40000 => some "safetynetp"
  | _ => none

/-- Text of an address given by its bytes, as `net.IP` prints it: four bytes in dotted
decimal; sixteen bytes as eight groups in lower case hexadecimal (the form Go prints
when no group is zero). -/
def ipText (ip : List Nat) : String :=
  if ip.length = 4 then ".".intercalate (ip.map toString)
  else
    ":".intercalate
      ((List.range (ip.length / 2)).map fun i =>
        String.mk (Nat.toDigits 16 (ip.getD (2 * i) 0 * 256 + ip.getD (2 * i + 1) 0)))

/-- A header decoder with the layout of RFC 3550, in the order in which the pion decoder
works: fewer than 4 bytes fail and leave the packet untouched; then the version is
written; a buffer too short for the fixed header and the announced CSRC list fails; then
payload type, marker, sequence number, timestamp and SSRC are written; a buffer that
announces a header extension and ends before the 4 bytes of its head, or before the
length this head announces, fails.  The padding bit is not looked at: every payload
below has it clear. -/
def headerUnmarshal (p : rtp.Packet) (buf : List Nat) : rtp.Packet × Option Error :=
  if buf.length < 4 then (p, some (.external "header size insufficient"))
  else
    let b0 := buf.getD 0 0
    let b1 := buf.getD 1 0
    let p : rtp.Packet := { p with Version := b0 / 64 }
    let n := 12 + 4 * (b0 % 16)
    if buf.length < n then (p, some (.external "header size insufficient"))
    else
      let p : rtp.Packet :=
        { p with
          PayloadType := b1 % 128
          SequenceNumber := buf.getD 2 0 * 256 + buf.getD 3 0
          Timestamp :=
            ((buf.getD 4 0 * 256 + buf.getD 5 0) * 256 + buf.getD 6 0) * 256 + buf.getD 7 0
          Marker := decide (b1 / 128 = 1)
          SSRC :=
            ((buf.getD 8 0 * 256 + buf.getD 9 0) * 256 + buf.getD 10 0) * 256
              + buf.getD 11 0 }
      if b0 / 16 % 2 = 1 then
        if buf.length < n + 4 then
          (p, some (.external "header size insufficient for extension"))
        else if buf.length < n + 4 + 4 * (buf.getD (n + 2) 0 * 256 + buf.getD (n + 3) 0) then
          (p, some (.external "header size insufficient for extension"))
        else (p, none)
      else (p, none)

/-- An environment with the instances above: identifiers are numbered, the clock
advances by one tick at every read, the capture handle opens. -/
def sampleEnv : Env where
  Unmarshal := headerUnmarshal
  tcpPortString := namedPortString ianaNames
  udpPortString := namedPortString ianaNames
  ipString := ipText
  uuid := fun k => "id-" ++ toString k
  clock := fun k => 1000 + k
  OpenLive := fun _ => none

/-- A sniffer over a backend without state that accepts every record. -/
def acceptAll : RTP Unit where
  Storage := { CreateRtpPacket := fun s _ => (s, none) }

/-- A sniffer over a backend without state that refuses every record. -/
def refuseAll : RTP Unit where
  Storage := { CreateRtpPacket := fun s _ => (s, some (.external "storage down")) }

/-- The world before the sniffer has done anything. -/
def World.start : World Unit where
  store := ()
  created := []
  clockReads := 0
  uuidCalls := 0
  handleOps := []

/-- An RTP header of 12 bytes: version 2, payload type 97, marker set, sequence number 42,
timestamp 90000, SSRC 0xAABBCCDD. -/
def rtpBytes : List Nat := [128, 225, 0, 42, 0, 1, 95, 144, 170, 187, 204, 221]

/-- The bytes of `rtpBytes` with the extension bit set and no extension header behind. -/
def truncatedBytes : List Nat := [144, 225, 0, 42, 0, 1, 95, 144, 170, 187, 204, 221]

/-- IPv4 header 10.0.0.1 to 10.0.0.2. -/
def ip4 : layers.IPv4 := { SrcIP := [10, 0, 0, 1], DstIP := [10, 0, 0, 2], Payload := [] }

/-- IPv6 header 2001:db8:1:2:3:4:5:6 to 2001:db8:1:2:3:4:5:7. -/
def ip6 : layers.IPv6 :=
  { SrcIP := [32, 1, 13, 184, 0, 1, 0, 2, 0, 3, 0, 4, 0, 5, 0, 6]
    DstIP := [32, 1, 13, 184, 0, 1, 0, 2, 0, 3, 0, 4, 0, 5, 0, 7]
    Payload := [] }

/-- The packet `handleLayer` assembles once ports and addresses are extracted. -/
def RTP.assembled (env : Env) (layer : gopacket.Layer) (rtpp : rtpPacket)
    (ipv4 : Option layers.IPv4) (ipv6 : Option layers.IPv6) : rtpPacket :=
  { (rtpp.UnmarshalNetwork env ipv4 ipv6).1 with
    SequenceNumber := (RTP.decoded env layer).SequenceNumber
    Timestamp := (RTP.decoded env layer).Timestamp
    Marker := (RTP.decoded env layer).Marker
    SSRC := (RTP.decoded env layer).SSRC }

/-! ## Numeric text -/

/-- Whether a character is a decimal digit. -/
def isDigit (c : Char) : Bool := decide (48 ≤ c.toNat ∧ c.toNat ≤ 57)

/-- A text without its leading sign, if it has one. -/
def unsignedPart (s : String) : List Char :=
  match s.toList with
  | [] => []
  | c :: cs => if c = '-' ∨ c = '+' then cs else c :: cs

/-- Numeric text: an optional sign followed by one or more decimal digits. -/
def isNumeric (s : String) : Bool :=
  !(unsignedPart s).isEmpty && (unsignedPart s).all isDigit

/-- The number that the digits `ds` denote behind an already read prefix of value `n`. -/
def digitsValue (ds : List Char) (n : Nat) : Nat :=
  ds.foldl (fun n c => n * 10 + (c.toNat - 48)) n

/-- The integer a numeric text denotes. -/
def numericValue (s : String) : Int :=
  if s.toList.head? = some '-' then -(digitsValue (unsignedPart s) 0 : Int)
  else (digitsValue (unsignedPart s) 0 : Int)

/-- A frame with an accepted RTP header over UDP between unnamed ports. -/
def udpFrame : gopacket.Packet :=
  { layers := [.IPv4 ip4, .UDP ⟨40002, 40004, rtpBytes⟩] }

/-- A frame that carries a TCP layer and a UDP layer, both with an accepted RTP header
as payload. -/
def bothFrame : gopacket.Packet :=
  { layers := [.IPv4 ip4, .UDP ⟨40004, 40002, rtpBytes⟩, .TCP ⟨40002, 40004, rtpBytes⟩] }

/-- A frame without a TCP or UDP layer. -/
def plainFrame : gopacket.Packet :=
  { layers := [.IPv4 ip4, .other [8, 0]] }

/-- The environment whose decoder leaves the same packets as the decoder of `env` and
never reports a failure. -/
def Env.withoutDecodeErrors (env : Env) : Env :=
  { env with Unmarshal := fun p buf => ((env.Unmarshal p buf).1, none) }

/-- A frame with an accepted RTP header over UDP from port 5000 to port 5004, both of
which have a name. -/
def namedFrame : gopacket.Packet :=
  { layers := [.IPv4 ip4, .UDP ⟨5000, 5004, rtpBytes⟩] }

/-! ## Lemmas on `handleLayer` -/

/-- A packet that fails the acceptance test leaves the world alone and returns `nil`. -/
theorem handleLayer_of_not_accepted {σ : Type} (env : Env) (r : RTP σ)
    (layer : gopacket.Layer) (ipv4 : Option layers.IPv4) (ipv6 : Option layers.IPv6)
    (w : World σ)
    (h : ¬ ((RTP.decoded env layer).Version = 2 ∧ (RTP.decoded env layer).PayloadType ≥ 96 ∧
      (RTP.decoded env layer).PayloadType ≤ 100)) :
    r.handleLayer env layer ipv4 ipv6 w = (w, none) := by
  unfold RTP.handleLayer
  simp only [if_neg h]

/-- An accepted packet whose port extraction fails returns that error at once. -/
theorem handleLayer_of_port_error {σ : Type} (env : Env) (r : RTP σ)
    (layer : gopacket.Layer) (ipv4 : Option layers.IPv4) (ipv6 : Option layers.IPv6)
    (w : World σ) (rtpp : rtpPacket) (err : Error)
    (h : (RTP.decoded env layer).Version = 2 ∧ (RTP.decoded env layer).PayloadType ≥ 96 ∧
      (RTP.decoded env layer).PayloadType ≤ 100)
    (ht : ({} : rtpPacket).UnmarshalTransport env layer = (rtpp, some err)) :
    r.handleLayer env layer ipv4 ipv6 w = (w, some err) := by
  unfold RTP.handleLayer
  simp only [if_pos h, ht]

/-- An accepted packet whose port extraction succeeds: one record goes to storage, and
the error of storage is the error returned. -/
theorem handleLayer_of_accepted {σ : Type} (env : Env) (r : RTP σ)
    (layer : gopacket.Layer) (ipv4 : Option layers.IPv4) (ipv6 : Option layers.IPv6)
    (w : World σ) (rtpp : rtpPacket)
    (h : (RTP.decoded env layer).Version = 2 ∧ (RTP.decoded env layer).PayloadType ≥ 96 ∧
      (RTP.decoded env layer).PayloadType ≤ 100)
    (ht : ({} : rtpPacket).UnmarshalTransport env layer = (rtpp, none)) :
    r.handleLayer env layer ipv4 ipv6 w =
      ({ w with
          store := (r.Storage.CreateRtpPacket w.store
            (RTP.pack env (RTP.assembled env layer rtpp ipv4 ipv6) w)).1
          created := w.created ++ [RTP.pack env (RTP.assembled env layer rtpp ipv4 ipv6) w]
          clockReads := w.clockReads + 2
          uuidCalls := w.uuidCalls + 1 },
        (r.Storage.CreateRtpPacket w.store
          (RTP.pack env (RTP.assembled env layer rtpp ipv4 ipv6) w)).2) := by
  unfold RTP.handleLayer
  simp only [if_pos h, ht]
  have hn : rtpp.UnmarshalNetwork env ipv4 ipv6 =
      ((rtpp.UnmarshalNetwork env ipv4 ipv6).1, none) := by
    unfold rtpPacket.UnmarshalNetwork
    rfl
  rw [hn]
  simp only [RTP.assembled]
  cases hres : (r.Storage.CreateRtpPacket w.store
    (RTP.pack env
      { (rtpp.UnmarshalNetwork env ipv4 ipv6).1 with
        SequenceNumber := (RTP.decoded env layer).SequenceNumber
        Timestamp := (RTP.decoded env layer).Timestamp
        Marker := (RTP.decoded env layer).Marker
        SSRC := (RTP.decoded env layer).SSRC } w)).2 <;> rfl

/-- Whatever `handleLayer` does, the list of records handed to storage grows by at most
one, and the capture handle is not touched. -/
theorem handleLayer_effects {σ : Type} (env : Env) (r : RTP σ)
    (layer : gopacket.Layer) (ipv4 : Option layers.IPv4) (ipv6 : Option layers.IPv6)
    (w : World σ) :
    ((r.handleLayer env layer ipv4 ipv6 w).1.created = w.created ∨
      ∃ pack, (r.handleLayer env layer ipv4 ipv6 w).1.created = w.created ++ [pack]) ∧
    (r.handleLayer env layer ipv4 ipv6 w).1.handleOps = w.handleOps := by
  by_cases h : (RTP.decoded env layer).Version = 2 ∧
      (RTP.decoded env layer).PayloadType ≥ 96 ∧ (RTP.decoded env layer).PayloadType ≤ 100
  · cases ht : ({} : rtpPacket).UnmarshalTransport env layer with
    | mk rtpp oe =>
      cases oe with
      | none =>
        rw [handleLayer_of_accepted env r layer ipv4 ipv6 w rtpp h ht]
        exact ⟨Or.inr ⟨_, rfl⟩, rfl⟩
      | some err =>
        rw [handleLayer_of_port_error env r layer ipv4 ipv6 w rtpp err h ht]
        exact ⟨Or.inl rfl, rfl⟩
  · rw [handleLayer_of_not_accepted env r layer ipv4 ipv6 w h]
    exact ⟨Or.inl rfl, rfl⟩

/-! ## Lemmas on `strconv.Atoi` -/

theorem le_digitsValue (ds : List Char) (n : Nat) : n ≤ digitsValue ds n := by
  induction ds generalizing n with
  | nil => simp [digitsValue]
  | cons c cs ih =>
    have h := ih (n * 10 + (c.toNat - 48))
    simp only [digitsValue, List.foldl_cons] at h ⊢
    omega

/-- The digit loop fails on a text that holds a character other than a digit. -/
theorem ParseUint_loop_of_not_digits (ds : List Char) (n : Nat)
    (h : ds.all isDigit = false) : ∃ k, strconv.ParseUint.loop ds n = .error k := by
  induction ds generalizing n with
  | nil => simp at h
  | cons c cs ih =>
    unfold strconv.ParseUint.loop
    by_cases hc : 48 ≤ c.toNat ∧ c.toNat ≤ 57
    · have hcs : cs.all isDigit = false := by
        simp only [List.all_cons, Bool.and_eq_false_iff] at h
        rcases h with h | h
        · simp [isDigit, hc] at h
        · exact h
      simp only [if_pos hc]
      split
      · exact ⟨_, rfl⟩
      · split
        · exact ⟨_, rfl⟩
        · exact ih _ hcs
    · simp only [if_neg hc]
      exact ⟨_, rfl⟩

/-- On digits the loop returns the denoted number if it fits `uint64`, and is out of
range otherwise. -/
theorem ParseUint_loop_of_digits (ds : List Char) (n : Nat) (hn : n ≤ maxUint64)
    (h : ds.all isDigit = true) :
    strconv.ParseUint.loop ds n =
      if digitsValue ds n ≤ maxUint64 then .ok (digitsValue ds n) else .error .outOfRange := by
  induction ds generalizing n with
  | nil =>
    unfold strconv.ParseUint.loop
    simp only [digitsValue, List.foldl_nil, if_pos hn]
  | cons c cs ih =>
    simp only [List.all_cons, Bool.and_eq_true] at h
    have hc : 48 ≤ c.toNat ∧ c.toNat ≤ 57 := by simpa [isDigit] using h.1
    have hge := le_digitsValue cs (n * 10 + (c.toNat - 48))
    have hval : digitsValue (c :: cs) n = digitsValue cs (n * 10 + (c.toNat - 48)) := by
      simp [digitsValue]
    have hM : maxUint64 = 18446744073709551615 := by decide
    unfold strconv.ParseUint.loop
    simp only [if_pos hc, hval]
    by_cases h1 : n ≥ maxUint64 / 10 + 1
    · have : ¬ digitsValue cs (n * 10 + (c.toNat - 48)) ≤ maxUint64 := by
        rw [hM] at h1 ⊢
        omega
      simp only [if_pos h1, if_neg this]
    · by_cases h2 : n * 10 + (c.toNat - 48) > maxUint64
      · have : ¬ digitsValue cs (n * 10 + (c.toNat - 48)) ≤ maxUint64 := by omega
        simp only [if_neg h1, if_pos h2, if_neg this]
      · simp only [if_neg h1, if_neg h2]
        exact ih _ (by omega) h.2

/-- A text that is not numeric is refused by `Atoi`. -/
theorem Atoi_of_not_numeric (s : String) (h : isNumeric s = false) :
    ∃ k, strconv.Atoi s = .error (.numError "Atoi" s k) := by
  unfold strconv.Atoi
  unfold isNumeric unsignedPart at h
  cases hs : s.toList with
  | nil => exact ⟨_, rfl⟩
  | cons c cs =>
    simp only [hs] at h
    simp only
    cases hds : (if c = '-' ∨ c = '+' then cs else c :: cs) with
    | nil => exact ⟨_, rfl⟩
    | cons d ds =>
      rw [hds] at h
      simp only [List.isEmpty_cons, Bool.not_false, Bool.true_and] at h
      obtain ⟨k, hk⟩ := ParseUint_loop_of_not_digits (d :: ds) 0 h
      exact ⟨k, by simp only [strconv.ParseUint, hk]⟩

/-- A numeric text is parsed to the integer it denotes if that fits a 64-bit `int`,
and is out of range otherwise. -/
theorem Atoi_of_numeric (s : String) (h : isNumeric s = true) :
    strconv.Atoi s =
      if -(2 : Int) ^ 63 ≤ numericValue s ∧ numericValue s < (2 : Int) ^ 63
      then .ok (numericValue s) else .error (.numError "Atoi" s .outOfRange) := by
  unfold strconv.Atoi numericValue
  unfold isNumeric at h
  unfold unsignedPart at h ⊢
  cases hs : s.toList with
  | nil =>
    rw [hs] at h
    simp at h
  | cons c cs =>
    rw [hs] at h
    simp only [Bool.and_eq_true, Bool.not_eq_true', List.isEmpty_eq_false] at h
    simp only [List.head?_cons, Option.some.injEq]
    obtain ⟨hne, hall⟩ := h
    have hM : maxUint64 = 18446744073709551615 := by decide
    have hloop := ParseUint_loop_of_digits (if c = '-' ∨ c = '+' then cs else c :: cs) 0
      (by rw [hM]; omega) hall
    have hP : strconv.ParseUint (if c = '-' ∨ c = '+' then cs else c :: cs) =
        strconv.ParseUint.loop (if c = '-' ∨ c = '+' then cs else c :: cs) 0 := by
      cases hds : (if c = '-' ∨ c = '+' then cs else c :: cs) with
      | nil => exact absurd hds hne
      | cons d ds => rfl
    rw [hP, hloop]
    generalize digitsValue (if c = '-' ∨ c = '+' then cs else c :: cs) 0 = V
    rw [hM]
    by_cases hV : V ≤ 18446744073709551615
    · simp only [if_pos hV]
      by_cases hneg : c = '-'
      · simp only [hneg, decide_True, Bool.not_true, if_true]
        split_ifs <;> first | rfl | (exfalso; norm_num at *; omega) | (exfalso; norm_num at *)
      · simp only [hneg, decide_False, Bool.not_false, if_false]
        split_ifs <;> first | rfl | (exfalso; norm_num at *; omega) | (exfalso; norm_num at *)
    · simp only [if_neg hV]
      by_cases hneg : c = '-'
      · simp only [hneg, if_true]
        split_ifs <;> first | rfl | (exfalso; norm_num at *; omega)
      · simp only [hneg, if_false]
        split_ifs <;> first | rfl | (exfalso; norm_num at *; omega)

/-! ## Classification and assembly (C1, C2, C3) -/

/-- C1: when the decoder succeeds on the layer payload and the decoded header has a
version other than 2, or a payload type below 96 or above 100, `handleLayer` returns no
error and leaves the world as it was: no call of `CreateRtpPacket`, no record. -/
theorem handleLayer_rejected_header_no_record {σ : Type} (env : Env) (r : RTP σ)
    (layer : gopacket.Layer) (ipv4 : Option layers.IPv4) (ipv6 : Option layers.IPv6)
    (w : World σ) (p : rtp.Packet)
    (hdec : env.Unmarshal (env.Unmarshal {} []).1 layer.LayerPayload = (p, none))
    (hrej : p.Version ≠ 2 ∨ p.PayloadType < 96 ∨ p.PayloadType > 100) :
    r.handleLayer env layer ipv4 ipv6 w = (w, none) := by
  apply handleLayer_of_not_accepted
  have hp : RTP.decoded env layer = p := by simp [RTP.decoded, hdec]
  rw [hp]
  omega

/-- Witness of C1: a UDP layer carrying an RTP header of version 2 with payload type 8. -/
theorem handleLayer_rejected_header_no_record_witness :
    sampleEnv.Unmarshal (sampleEnv.Unmarshal {} []).1
        (gopacket.Layer.UDP ⟨40000, 40002, [128, 8, 0, 1, 0, 0, 0, 160, 0, 0, 0, 1]⟩).LayerPayload
      = (⟨2, 8, 1, 160, false, 1⟩, none) ∧
    acceptAll.handleLayer sampleEnv
        (.UDP ⟨40000, 40002, [128, 8, 0, 1, 0, 0, 0, 160, 0, 0, 0, 1]⟩) (some ip4) none
        World.start
      = (World.start, none) :=
  ⟨by rfl,
    handleLayer_rejected_header_no_record sampleEnv acceptAll
      (.UDP ⟨40000, 40002, [128, 8, 0, 1, 0, 0, 0, 160, 0, 0, 0, 1]⟩) (some ip4) none
      World.start ⟨2, 8, 1, 160, false, 1⟩ (by rfl) (by decide)⟩

/-- C2 as stated fails: the payload `truncatedBytes` announces a header extension that
is not there, so the decoder reports a failure after it has written version 2 and payload
type 97; `handleLayer` still applies the acceptance test to these fields and hands a
record to storage. -/
theorem handleLayer_failed_decode_stores_record :
    (sampleEnv.Unmarshal (sampleEnv.Unmarshal {} []).1
        (gopacket.Layer.UDP ⟨40002, 40004, truncatedBytes⟩).LayerPayload).2
      = some (.external "header size insufficient for extension") ∧
    (acceptAll.handleLayer sampleEnv (.UDP ⟨40002, 40004, truncatedBytes⟩) (some ip4) none
        World.start).2 = none ∧
    (acceptAll.handleLayer sampleEnv (.UDP ⟨40002, 40004, truncatedBytes⟩) (some ip4) none
        World.start).1.created
      = [{ Id := "id-0", DstPort := 40004, SrcPort := 40002, DstIp := "10.0.0.2",
           SrcIp := "10.0.0.1", SequenceNumber := 42, Timestamp := 90000, Marker := true,
           Ssrc := 2864434397, StandardTime := { CreatedAt := 1000, UpdatedAt := 1001 } }] :=
  ⟨by rfl, by rfl, by rfl⟩

/-- C3: when the decoder succeeds with version 2 and a payload type in [96,100], and the
port extraction succeeds, `handleLayer` calls `CreateRtpPacket` exactly once; the record
it hands over has the sequence number, timestamp, marker and SSRC of the decoded header,
and its addresses are the texts of the addresses of the network header (of the IPv4
header when that is the only one, of the IPv6 header when there is one). -/
theorem handleLayer_accepted_one_record {σ : Type} (env : Env) (r : RTP σ)
    (layer : gopacket.Layer) (ipv4 : Option layers.IPv4) (ipv6 : Option layers.IPv6)
    (w : World σ) (p : rtp.Packet) (rtpp : rtpPacket)
    (hdec : env.Unmarshal (env.Unmarshal {} []).1 layer.LayerPayload = (p, none))
    (hacc : p.Version = 2 ∧ 96 ≤ p.PayloadType ∧ p.PayloadType ≤ 100)
    (hports : ({} : rtpPacket).UnmarshalTransport env layer = (rtpp, none)) :
    ∃ pack : storage.RtpPacket,
      (r.handleLayer env layer ipv4 ipv6 w).1.created = w.created ++ [pack] ∧
      (r.handleLayer env layer ipv4 ipv6 w).1.store
        = (r.Storage.CreateRtpPacket w.store pack).1 ∧
      (r.handleLayer env layer ipv4 ipv6 w).2 = (r.Storage.CreateRtpPacket w.store pack).2 ∧
      pack.SequenceNumber = p.SequenceNumber ∧ pack.Timestamp = p.Timestamp ∧
      pack.Marker = p.Marker ∧ pack.Ssrc = p.SSRC ∧
      (∀ h4, ipv4 = some h4 → ipv6 = none →
        pack.SrcIp = env.ipString h4.SrcIP ∧ pack.DstIp = env.ipString h4.DstIP) ∧
      (∀ h6, ipv6 = some h6 →
        pack.SrcIp = env.ipString h6.SrcIP ∧ pack.DstIp = env.ipString h6.DstIP) := by
  have hp : RTP.decoded env layer = p := by simp [RTP.decoded, hdec]
  have hacc2 : (RTP.decoded env layer).Version = 2 ∧
      (RTP.decoded env layer).PayloadType ≥ 96 ∧ (RTP.decoded env layer).PayloadType ≤ 100 := by
    rw [hp]
    exact hacc
  refine ⟨RTP.pack env (RTP.assembled env layer rtpp ipv4 ipv6) w, ?_⟩
  rw [handleLayer_of_accepted env r layer ipv4 ipv6 w rtpp hacc2 hports]
  refine ⟨rfl, rfl, rfl, ?_, ?_, ?_, ?_, ?_, ?_⟩
  · simp [RTP.pack, RTP.assembled, hp]
  · simp [RTP.pack, RTP.assembled, hp]
  · simp [RTP.pack, RTP.assembled, hp]
  · simp [RTP.pack, RTP.assembled, hp]
  · intro h4 e4 e6
    subst e4 e6
    exact ⟨rfl, rfl⟩
  · intro h6 e6
    subst e6
    cases ipv4 <;> exact ⟨rfl, rfl⟩

/-- Witness of C3, the example of the claim: IPv4 10.0.0.1 to 10.0.0.2, RTP header with
version 2, payload type 97, sequence number 42, timestamp 90000, marker set and
SSRC 0xAABBCCDD. -/
theorem handleLayer_accepted_one_record_witness :
    ∃ pack : storage.RtpPacket,
      (acceptAll.handleLayer sampleEnv (.UDP ⟨40002, 40004, rtpBytes⟩) (some ip4) none
        World.start).1.created = [pack] ∧
      pack.SequenceNumber = 42 ∧ pack.Timestamp = 90000 ∧ pack.Marker = true ∧
      pack.Ssrc = 0xAABBCCDD ∧ pack.SrcIp = "10.0.0.1" ∧ pack.DstIp = "10.0.0.2" := by
  obtain ⟨pack, hc, _, _, h1, h2, h3, h4, h5, _⟩ :=
    handleLayer_accepted_one_record sampleEnv acceptAll (.UDP ⟨40002, 40004, rtpBytes⟩)
      (some ip4) none World.start ⟨2, 97, 42, 90000, true, 0xAABBCCDD⟩
      ⟨40004, 40002, "", "", 0, 0, false, 0⟩ (by rfl) (by decide) (by rfl)
  exact ⟨pack, hc, h1, h2, h3, h4, (h5 ip4 rfl rfl).1.trans (by rfl),
    (h5 ip4 rfl rfl).2.trans (by rfl)⟩

/-! ## Lemmas on the text of a port -/

theorem isDigit_digitChar (m : Nat) (h : m < 10) :
    isDigit (Nat.digitChar m) = true ∧ (Nat.digitChar m).toNat - 48 = m := by
  interval_cases m <;> exact ⟨by rfl, by rfl⟩

theorem toDigitsCore_all_isDigit (fuel n : Nat) (ds : List Char)
    (h : ds.all isDigit = true) : (Nat.toDigitsCore 10 fuel n ds).all isDigit = true := by
  induction fuel generalizing n ds with
  | zero => simpa [Nat.toDigitsCore] using h
  | succ fuel ih =>
    have hd := (isDigit_digitChar (n % 10) (Nat.mod_lt _ (by decide))).1
    have hcons : (Nat.digitChar (n % 10) :: ds).all isDigit = true := by
      simp only [List.all_cons, hd, h, Bool.and_self]
    unfold Nat.toDigitsCore
    simp only
    split
    · exact hcons
    · exact ih _ _ hcons

theorem toDigitsCore_ne_nil (fuel n : Nat) (ds : List Char) (h : ds ≠ [] ∨ 0 < fuel) :
    Nat.toDigitsCore 10 fuel n ds ≠ [] := by
  induction fuel generalizing n ds with
  | zero =>
    rcases h with h | h
    · simpa [Nat.toDigitsCore] using h
    · exact absurd h (by decide)
  | succ fuel ih =>
    unfold Nat.toDigitsCore
    simp only
    split
    · exact List.cons_ne_nil _ _
    · exact ih _ _ (Or.inl (List.cons_ne_nil _ _))

theorem digitsValue_toDigitsCore (fuel n : Nat) (ds : List Char) (h : n < fuel) :
    digitsValue (Nat.toDigitsCore 10 fuel n ds) 0 = digitsValue ds n := by
  induction fuel generalizing n ds with
  | zero => exact absurd h (by omega)
  | succ fuel ih =>
    have hd := (isDigit_digitChar (n % 10) (Nat.mod_lt _ (by decide))).2
    unfold Nat.toDigitsCore
    simp only
    split
    · rename_i h0
      have hn : n % 10 = n := by omega
      rw [hn] at hd ⊢
      simp only [digitsValue, List.foldl_cons, hd, Nat.zero_mul, Nat.zero_add]
    · rename_i h0
      rw [ih (n / 10) _ (by omega)]
      simp only [digitsValue, List.foldl_cons, hd]
      congr 1
      omega

/-- The decimal text of a number is numeric and denotes that number. -/
theorem numeric_toString (a : Nat) :
    isNumeric (toString a) = true ∧ numericValue (toString a) = (a : Int) := by
  have hl : (toString a).toList = Nat.toDigits 10 a := rfl
  have hne : Nat.toDigits 10 a ≠ [] := toDigitsCore_ne_nil _ _ _ (Or.inr (by omega))
  have hall : (Nat.toDigits 10 a).all isDigit = true := toDigitsCore_all_isDigit _ _ _ rfl
  have hval : digitsValue (Nat.toDigits 10 a) 0 = a :=
    (digitsValue_toDigitsCore (a + 1) a [] (by omega)).trans rfl
  cases hd : Nat.toDigits 10 a with
  | nil => exact absurd hd hne
  | cons c cs =>
    have hc : isDigit c = true := by
      rw [hd] at hall
      simp only [List.all_cons, Bool.and_eq_true] at hall
      exact hall.1
    have hc2 : 48 ≤ c.toNat ∧ c.toNat ≤ 57 := by simpa [isDigit] using hc
    have hminus : c ≠ '-' := by
      intro hc3
      rw [hc3] at hc2
      exact absurd hc2.1 (by decide)
    have hplus : c ≠ '+' := by
      intro hc3
      rw [hc3] at hc2
      exact absurd hc2.1 (by decide)
    have hu : unsignedPart (toString a) = c :: cs := by
      simp only [unsignedPart, hl, hd, hminus, hplus, or_self, if_false]
    constructor
    · rw [isNumeric, hu, ← hd, hall]
      rw [hd]
      rfl
    · rw [numericValue, hu, hl, hd]
      simp only [List.head?_cons, Option.some.injEq, hminus, if_false]
      rw [← hd, hval]

/-- The text `number(name)` of a named port is not numeric. -/
theorem not_numeric_named (a : Nat) (name : String) :
    isNumeric (toString a ++ "(" ++ name ++ ")") = false := by
  have hl : (toString a ++ "(" ++ name ++ ")").toList
      = Nat.toDigits 10 a ++ ('(' :: (name.toList ++ [')'])) := by
    have h1 : (toString a).toList = Nat.toDigits 10 a := rfl
    simp only [String.toList, String.data_append] at h1 ⊢
    rw [h1]
    simp
  have hne : Nat.toDigits 10 a ≠ [] := toDigitsCore_ne_nil _ _ _ (Or.inr (by omega))
  have hall : (Nat.toDigits 10 a).all isDigit = true := toDigitsCore_all_isDigit _ _ _ rfl
  cases hd : Nat.toDigits 10 a with
  | nil => exact absurd hd hne
  | cons c cs =>
    rw [hd] at hl hall
    have hc : isDigit c = true := by
      simp only [List.all_cons, Bool.and_eq_true] at hall
      exact hall.1
    have hc2 : 48 ≤ c.toNat ∧ c.toNat ≤ 57 := by simpa [isDigit] using hc
    have hminus : c ≠ '-' := by
      intro hc3
      rw [hc3] at hc2
      exact absurd hc2.1 (by decide)
    have hplus : c ≠ '+' := by
      intro hc3
      rw [hc3] at hc2
      exact absurd hc2.1 (by decide)
    have hu : unsignedPart (toString a ++ "(" ++ name ++ ")")
        = c :: (cs ++ ('(' :: (name.toList ++ [')']))) := by
      simp only [unsignedPart, hl, List.cons_append, hminus, hplus, or_self, if_false]
    have hparen : isDigit '(' = false := by decide
    rw [isNumeric, hu]
    simp [hparen]

/-! ## Field extraction (C4, C5, C6) -/

/-- `Atoi` refuses a text that is not numeric and a numeral outside the 64-bit `int`. -/
theorem Atoi_of_rejected (t : String)
    (h : isNumeric t = false ∨ numericValue t < -(2 : Int) ^ 63 ∨
      (2 : Int) ^ 63 ≤ numericValue t) :
    ∃ k, strconv.Atoi t = .error (.numError "Atoi" t k) := by
  cases hn : isNumeric t with
  | false => exact Atoi_of_not_numeric t hn
  | true =>
    rcases h with h | h
    · rw [hn] at h
      exact absurd h (by decide)
    · refine ⟨.outOfRange, ?_⟩
      rw [Atoi_of_numeric t hn, if_neg]
      omega

/-- The two parses fail as soon as one of the two texts is refused by `Atoi`; the error
does not depend on the receiver. -/
theorem parsePorts_of_rejected (dstText srcText : String)
    (h : (∃ k, strconv.Atoi dstText = .error (.numError "Atoi" dstText k)) ∨
      (∃ k, strconv.Atoi srcText = .error (.numError "Atoi" srcText k))) :
    ∃ err, ∀ r : rtpPacket, r.parsePorts dstText srcText =
      ((r.parsePorts dstText srcText).1, some err) := by
  cases hd : strconv.Atoi dstText with
  | error e =>
    refine ⟨e, fun r => ?_⟩
    simp only [rtpPacket.parsePorts, hd]
  | ok v =>
    rcases h with ⟨k, hk⟩ | ⟨k, hk⟩
    · rw [hk] at hd
      exact absurd hd (by simp)
    · refine ⟨.numError "Atoi" srcText k, fun r => ?_⟩
      simp only [rtpPacket.parsePorts, hd, hk]

/-- On numeric texts that fit `int` the two parses succeed and store the denoted numbers
reduced modulo `2 ^ 16`. -/
theorem parsePorts_of_numeric (r : rtpPacket) (dstText srcText : String)
    (hd : isNumeric dstText = true) (hs : isNumeric srcText = true)
    (hdr : -(2 : Int) ^ 63 ≤ numericValue dstText ∧ numericValue dstText < (2 : Int) ^ 63)
    (hsr : -(2 : Int) ^ 63 ≤ numericValue srcText ∧ numericValue srcText < (2 : Int) ^ 63) :
    r.parsePorts dstText srcText =
      ({ r with DstPort := uint16 (numericValue dstText),
                SrcPort := uint16 (numericValue srcText) }, none) := by
  simp only [rtpPacket.parsePorts, Atoi_of_numeric dstText hd, Atoi_of_numeric srcText hs,
    if_pos hdr, if_pos hsr]

/-- C4, the code at a failing input: a UDP layer with source port 5000 and destination
port 5004.  The port accessor of gopacket prints a port that has a well-known name as
`number(name)`, here `5004(avt-profile-1)`; `Atoi` refuses that text, so
`UnmarshalTransport` returns an error and sets no port. -/
theorem UnmarshalTransport_named_port_error :
    sampleEnv.udpPortString 5004 = "5004(avt-profile-1)" ∧
    ({} : rtpPacket).UnmarshalTransport sampleEnv (.UDP ⟨5000, 5004, rtpBytes⟩)
      = ({}, some (.numError "Atoi" "5004(avt-profile-1)" .invalid)) :=
  ⟨by rfl, by rfl⟩

/-- For a TCP or UDP layer whose source or destination port text is refused by `Atoi`
(not numeric, or a numeral outside the 64-bit `int`), `UnmarshalTransport` returns an
error whatever the receiver, and `handleLayer` on a frame that passes the acceptance test
returns that error and leaves the world as it was. -/
theorem handleLayer_of_rejected_text {σ : Type} (env : Env) (r : RTP σ)
    (layer : gopacket.Layer) (ipv4 : Option layers.IPv4) (ipv6 : Option layers.IPv6)
    (w : World σ) (dstText srcText : String)
    (hlayer : (∃ tcp, layer = .TCP tcp ∧ dstText = env.tcpPortString tcp.DstPort ∧
        srcText = env.tcpPortString tcp.SrcPort) ∨
      (∃ udp, layer = .UDP udp ∧ dstText = env.udpPortString udp.DstPort ∧
        srcText = env.udpPortString udp.SrcPort))
    (hbad : (isNumeric dstText = false ∨ numericValue dstText < -(2 : Int) ^ 63 ∨
        (2 : Int) ^ 63 ≤ numericValue dstText) ∨
      (isNumeric srcText = false ∨ numericValue srcText < -(2 : Int) ^ 63 ∨
        (2 : Int) ^ 63 ≤ numericValue srcText))
    (hacc : (RTP.decoded env layer).Version = 2 ∧ (RTP.decoded env layer).PayloadType ≥ 96 ∧
      (RTP.decoded env layer).PayloadType ≤ 100) :
    ∃ err, (∀ r0 : rtpPacket, (r0.UnmarshalTransport env layer).2 = some err) ∧
      r.handleLayer env layer ipv4 ipv6 w = (w, some err) := by
  obtain ⟨err, herr⟩ := parsePorts_of_rejected dstText srcText
    (hbad.imp (Atoi_of_rejected dstText) (Atoi_of_rejected srcText))
  have ht : ∀ r0 : rtpPacket, r0.UnmarshalTransport env layer =
      ((r0.parsePorts dstText srcText).1, some err) := by
    intro r0
    rcases hlayer with ⟨tcp, hl, hd, hs⟩ | ⟨udp, hl, hd, hs⟩
    · subst hl hd hs
      exact herr r0
    · subst hl hd hs
      exact herr r0
  refine ⟨err, fun r0 => by rw [ht r0], ?_⟩
  exact handleLayer_of_port_error env r layer ipv4 ipv6 w _ err hacc (ht {})

/-- A port text printed as `number` or `number(name)` is numeric only for a port
without a name, and then it denotes the port. -/
theorem namedPortString_numeric (names : Nat → Option String) (a : Nat)
    (h : isNumeric (namedPortString names a) = true) :
    names a = none ∧ numericValue (namedPortString names a) = (a : Int) := by
  unfold namedPortString at h ⊢
  cases hn : names a with
  | none => exact ⟨rfl, (numeric_toString a).2⟩
  | some name =>
    rw [hn] at h
    simp only at h
    rw [not_numeric_named a name] at h
    exact absurd h (by decide)

/-- On the decimal texts of two `uint16` ports the two parses succeed and store the
ports. -/
theorem parsePorts_toString (r : rtpPacket) (d s : Nat) (hd : d < 65536) (hs : s < 65536) :
    r.parsePorts (toString d) (toString s) = ({ r with DstPort := d, SrcPort := s }, none) := by
  have h1 := numeric_toString d
  have h2 := numeric_toString s
  rw [parsePorts_of_numeric r _ _ h1.1 h2.1 (by rw [h1.2]; norm_num; omega)
    (by rw [h2.2]; norm_num; omega), h1.2, h2.2]
  have e1 : uint16 (d : Int) = d := by
    unfold uint16
    omega
  have e2 : uint16 (s : Int) = s := by
    unfold uint16
    omega
  rw [e1, e2]

/-- C5: let the port accessors print a port as gopacket does, `number` or
`number(name)`.  For every TCP or UDP layer with `uint16` ports whose source or
destination port text is not numeric, or is a numeral outside [0,65535],
`UnmarshalTransport` returns an error whatever the receiver, and `handleLayer` on a frame
that passes the acceptance test returns that error and leaves the world as it was: no
call of `CreateRtpPacket`. -/
theorem UnmarshalTransport_bad_port_text_error {σ : Type} (env : Env) (r : RTP σ)
    (layer : gopacket.Layer) (ipv4 : Option layers.IPv4) (ipv6 : Option layers.IPv6)
    (w : World σ) (tcpNames udpNames : Nat → Option String) (dstText srcText : String)
    (htcp : ∀ a, env.tcpPortString a = namedPortString tcpNames a)
    (hudp : ∀ a, env.udpPortString a = namedPortString udpNames a)
    (hlayer : (∃ tcp, layer = .TCP tcp ∧ tcp.SrcPort < 65536 ∧ tcp.DstPort < 65536 ∧
        dstText = env.tcpPortString tcp.DstPort ∧ srcText = env.tcpPortString tcp.SrcPort) ∨
      (∃ udp, layer = .UDP udp ∧ udp.SrcPort < 65536 ∧ udp.DstPort < 65536 ∧
        dstText = env.udpPortString udp.DstPort ∧ srcText = env.udpPortString udp.SrcPort))
    (hbad : (isNumeric dstText = false ∨
        (isNumeric dstText = true ∧ (numericValue dstText < 0 ∨ 65535 < numericValue dstText))) ∨
      (isNumeric srcText = false ∨
        (isNumeric srcText = true ∧ (numericValue srcText < 0 ∨ 65535 < numericValue srcText))))
    (hacc : (RTP.decoded env layer).Version = 2 ∧ (RTP.decoded env layer).PayloadType ≥ 96 ∧
      (RTP.decoded env layer).PayloadType ≤ 100) :
    ∃ err, (∀ r0 : rtpPacket, (r0.UnmarshalTransport env layer).2 = some err) ∧
      r.handleLayer env layer ipv4 ipv6 w = (w, some err) := by
  have key : ∀ (names : Nat → Option String) (a : Nat), a < 65536 →
      (isNumeric (namedPortString names a) = false ∨
        (isNumeric (namedPortString names a) = true ∧
          (numericValue (namedPortString names a) < 0 ∨
            65535 < numericValue (namedPortString names a)))) →
      isNumeric (namedPortString names a) = false := by
    intro names a ha hb
    rcases hb with hb | ⟨hnum, hout⟩
    · exact hb
    · have hv := (namedPortString_numeric names a hnum).2
      rw [hv] at hout
      omega
  have hbad2 : isNumeric dstText = false ∨ isNumeric srcText = false := by
    rcases hlayer with ⟨tcp, _, hs, hdp, hdt, hst⟩ | ⟨udp, _, hs, hdp, hdt, hst⟩
    · rw [hdt, hst, htcp, htcp] at hbad ⊢
      exact hbad.imp (key _ _ hdp) (key _ _ hs)
    · rw [hdt, hst, hudp, hudp] at hbad ⊢
      exact hbad.imp (key _ _ hdp) (key _ _ hs)
  have hlayer2 : (∃ tcp, layer = .TCP tcp ∧ dstText = env.tcpPortString tcp.DstPort ∧
        srcText = env.tcpPortString tcp.SrcPort) ∨
      (∃ udp, layer = .UDP udp ∧ dstText = env.udpPortString udp.DstPort ∧
        srcText = env.udpPortString udp.SrcPort) := by
    rcases hlayer with ⟨tcp, hl, _, _, hdt, hst⟩ | ⟨udp, hl, _, _, hdt, hst⟩
    · exact Or.inl ⟨tcp, hl, hdt, hst⟩
    · exact Or.inr ⟨udp, hl, hdt, hst⟩
  exact handleLayer_of_rejected_text env r layer ipv4 ipv6 w dstText srcText hlayer2
    (hbad2.imp Or.inl Or.inl) hacc

/-- Witness of C5: a TCP layer from port 40002 to port 80, which is printed `80(http)`. -/
theorem UnmarshalTransport_bad_port_text_error_witness :
    isNumeric (sampleEnv.tcpPortString 80) = false ∧
    ∃ err, (∀ r0 : rtpPacket,
        (r0.UnmarshalTransport sampleEnv (.TCP ⟨40002, 80, rtpBytes⟩)).2 = some err) ∧
      acceptAll.handleLayer sampleEnv (.TCP ⟨40002, 80, rtpBytes⟩) (some ip4) none World.start
        = (World.start, some err) :=
  ⟨by rfl,
    UnmarshalTransport_bad_port_text_error sampleEnv acceptAll (.TCP ⟨40002, 80, rtpBytes⟩)
      (some ip4) none World.start ianaNames ianaNames (sampleEnv.tcpPortString 80)
      (sampleEnv.tcpPortString 40002) (fun _ => rfl) (fun _ => rfl)
      (Or.inl ⟨⟨40002, 80, rtpBytes⟩, rfl, by decide, by decide, rfl, rfl⟩)
      (Or.inl (Or.inl (by rfl))) (by decide)⟩

/-- C6 as stated fails: with the IPv4 header 10.0.0.1 to 10.0.0.2 and the IPv6 header
2001:db8:1:2:3:4:5:6 to 2001:db8:1:2:3:4:5:7 both present, the addresses written are
those of the IPv6 header. -/
theorem UnmarshalNetwork_both_not_ipv4 :
    (({} : rtpPacket).UnmarshalNetwork sampleEnv (some ip4) (some ip6)).1.SrcIp
      = "2001:db8:1:2:3:4:5:6" ∧
    (({} : rtpPacket).UnmarshalNetwork sampleEnv (some ip4) (some ip6)).1.DstIp
      = "2001:db8:1:2:3:4:5:7" ∧
    sampleEnv.ipString ip4.SrcIP = "10.0.0.1" ∧ sampleEnv.ipString ip4.DstIP = "10.0.0.2" ∧
    (({} : rtpPacket).UnmarshalNetwork sampleEnv (some ip4) (some ip6)).1.SrcIp
      ≠ sampleEnv.ipString ip4.SrcIP :=
  ⟨by rfl, by rfl, by rfl, by rfl, by decide⟩

/-- C6, amended: when an IPv4 header and an IPv6 header are both present, the resulting
addresses are the texts of the IPv6 addresses; the IPv4 addresses are the result only
when no IPv6 header is present.  No error is returned. -/
theorem UnmarshalNetwork_ipv6_overrides (env : Env) (r : rtpPacket)
    (h4 : layers.IPv4) (h6 : layers.IPv6) :
    r.UnmarshalNetwork env (some h4) (some h6)
      = ({ r with SrcIp := env.ipString h6.SrcIP, DstIp := env.ipString h6.DstIP }, none) ∧
    r.UnmarshalNetwork env (some h4) none
      = ({ r with SrcIp := env.ipString h4.SrcIP, DstIp := env.ipString h4.DstIP }, none) ∧
    r.UnmarshalNetwork env none (some h6)
      = ({ r with SrcIp := env.ipString h6.SrcIP, DstIp := env.ipString h6.DstIP }, none) :=
  ⟨rfl, rfl, rfl⟩

/-! ## Failed decodes (C2) -/

/-- C2, amended: when the decoder reports a failure on the layer payload, `handleLayer`
ignores the report: its outcome is the one it has when the decoder leaves the same field
values and reports no failure.  So when the field values the failed decode left do not
pass the acceptance test (version other than 2, or payload type below 96 or above 100),
`handleLayer` returns no error and leaves the world as it was: no call of
`CreateRtpPacket`, no record. -/
theorem handleLayer_failed_decode_ignored {σ : Type} (env : Env) (r : RTP σ)
    (layer : gopacket.Layer) (ipv4 : Option layers.IPv4) (ipv6 : Option layers.IPv6)
    (w : World σ) (p : rtp.Packet) (err : Error)
    (hdec : env.Unmarshal (env.Unmarshal {} []).1 layer.LayerPayload = (p, some err)) :
    r.handleLayer env layer ipv4 ipv6 w
      = r.handleLayer env.withoutDecodeErrors layer ipv4 ipv6 w ∧
    ((p.Version ≠ 2 ∨ p.PayloadType < 96 ∨ p.PayloadType > 100) →
      r.handleLayer env layer ipv4 ipv6 w = (w, none)) := by
  constructor
  · rfl
  · intro hrej
    apply handleLayer_of_not_accepted
    have hp : RTP.decoded env layer = p := by simp [RTP.decoded, hdec]
    rw [hp]
    omega

/-- Witness of C2: a payload of three bytes, too short for an RTP header; the decoder
fails and leaves the zero packet. -/
theorem handleLayer_failed_decode_ignored_witness :
    sampleEnv.Unmarshal (sampleEnv.Unmarshal {} []).1
        (gopacket.Layer.UDP ⟨40002, 40004, [128, 97, 0]⟩).LayerPayload
      = ({}, some (.external "header size insufficient")) ∧
    acceptAll.handleLayer sampleEnv (.UDP ⟨40002, 40004, [128, 97, 0]⟩) (some ip4) none
        World.start
      = acceptAll.handleLayer sampleEnv.withoutDecodeErrors
          (.UDP ⟨40002, 40004, [128, 97, 0]⟩) (some ip4) none World.start ∧
    acceptAll.handleLayer sampleEnv (.UDP ⟨40002, 40004, [128, 97, 0]⟩) (some ip4) none
        World.start
      = (World.start, none) :=
  have h := handleLayer_failed_decode_ignored sampleEnv acceptAll
    (.UDP ⟨40002, 40004, [128, 97, 0]⟩) (some ip4) none World.start {}
    (.external "header size insufficient") (by rfl)
  ⟨by rfl, h.1, h.2 (by decide)⟩

/-! ## The capture loop (C7, C8, C10) -/

/-- Looking up a layer type other than UDP gives the same layer after the UDP layers are
taken out of the list. -/
theorem find_hasType_filter_udp (ls : List gopacket.Layer) (t : gopacket.LayerType)
    (ht : t ≠ .LayerTypeUDP) :
    (ls.filter (fun l => !l.hasType .LayerTypeUDP)).find? (fun l => l.hasType t)
      = ls.find? (fun l => l.hasType t) := by
  induction ls with
  | nil => rfl
  | cons l ls ih =>
    cases l <;> cases t <;>
      simp_all [List.filter_cons, List.find?_cons, gopacket.Layer.hasType]

/-- A layer found under the TCP layer type is a TCP layer of the packet. -/
theorem Layer_tcp_of_mem (packet : gopacket.Packet)
    (h : ∃ l ∈ packet.layers, l.hasType .LayerTypeTCP = true) :
    ∃ tcp : layers.TCP, gopacket.Layer.TCP tcp ∈ packet.layers ∧
      packet.Layer .LayerTypeTCP = some (.TCP tcp) := by
  obtain ⟨l, hl, hty⟩ := h
  cases hf : packet.layers.find? (fun l => l.hasType .LayerTypeTCP) with
  | none =>
    have := List.find?_eq_none.mp hf l hl
    exact absurd hty this
  | some x =>
    have hx := List.find?_some hf
    have hmem := List.mem_of_find?_eq_some hf
    cases x with
    | TCP tcp => exact ⟨tcp, hmem, hf⟩
    | UDP _ => simp [gopacket.Layer.hasType] at hx
    | IPv4 _ => simp [gopacket.Layer.hasType] at hx
    | IPv6 _ => simp [gopacket.Layer.hasType] at hx
    | other _ => simp [gopacket.Layer.hasType] at hx

/-- A layer found under the UDP layer type is a UDP layer of the packet. -/
theorem Layer_udp_of_mem (packet : gopacket.Packet)
    (h : ∃ l ∈ packet.layers, l.hasType .LayerTypeUDP = true) :
    ∃ udp : layers.UDP, gopacket.Layer.UDP udp ∈ packet.layers ∧
      packet.Layer .LayerTypeUDP = some (.UDP udp) := by
  obtain ⟨l, hl, hty⟩ := h
  cases hf : packet.layers.find? (fun l => l.hasType .LayerTypeUDP) with
  | none =>
    have := List.find?_eq_none.mp hf l hl
    exact absurd hty this
  | some x =>
    have hx := List.find?_some hf
    have hmem := List.mem_of_find?_eq_some hf
    cases x with
    | UDP udp => exact ⟨udp, hmem, hf⟩
    | TCP _ => simp [gopacket.Layer.hasType] at hx
    | IPv4 _ => simp [gopacket.Layer.hasType] at hx
    | IPv6 _ => simp [gopacket.Layer.hasType] at hx
    | other _ => simp [gopacket.Layer.hasType] at hx

/-- The record of an accepted TCP layer has the ports parsed from the texts of the ports
of that layer. -/
theorem handleLayer_tcp_ports {σ : Type} (env : Env) (r : RTP σ) (tcp : layers.TCP)
    (ipv4 : Option layers.IPv4) (ipv6 : Option layers.IPv6) (w : World σ)
    (pack : storage.RtpPacket)
    (h : (r.handleLayer env (.TCP tcp) ipv4 ipv6 w).1.created = w.created ++ [pack]) :
    ∃ sp dp : Int, strconv.Atoi (env.tcpPortString tcp.SrcPort) = .ok sp ∧
      strconv.Atoi (env.tcpPortString tcp.DstPort) = .ok dp ∧
      pack.SrcPort = uint16 sp ∧ pack.DstPort = uint16 dp := by
  by_cases hacc : (RTP.decoded env (.TCP tcp)).Version = 2 ∧
      (RTP.decoded env (.TCP tcp)).PayloadType ≥ 96 ∧
      (RTP.decoded env (.TCP tcp)).PayloadType ≤ 100
  · cases hd : strconv.Atoi (env.tcpPortString tcp.DstPort) with
    | error e =>
      have ht : ({} : rtpPacket).UnmarshalTransport env (.TCP tcp) = ({}, some e) := by
        simp only [rtpPacket.UnmarshalTransport, rtpPacket.parsePorts, hd]
      rw [handleLayer_of_port_error env r _ ipv4 ipv6 w _ e hacc ht] at h
      simp at h
    | ok dp =>
      cases hs : strconv.Atoi (env.tcpPortString tcp.SrcPort) with
      | error e =>
        have ht : ({} : rtpPacket).UnmarshalTransport env (.TCP tcp)
            = ({ DstPort := uint16 dp }, some e) := by
          simp only [rtpPacket.UnmarshalTransport, rtpPacket.parsePorts, hd, hs]
        rw [handleLayer_of_port_error env r _ ipv4 ipv6 w _ e hacc ht] at h
        simp at h
      | ok sp =>
        have ht : ({} : rtpPacket).UnmarshalTransport env (.TCP tcp)
            = ({ DstPort := uint16 dp, SrcPort := uint16 sp }, none) := by
          simp only [rtpPacket.UnmarshalTransport, rtpPacket.parsePorts, hd, hs]
        rw [handleLayer_of_accepted env r _ ipv4 ipv6 w _ hacc ht] at h
        simp only [List.append_cancel_left_eq, List.cons.injEq, and_true] at h
        subst h
        refine ⟨sp, dp, rfl, rfl, ?_, ?_⟩
        · cases ipv4 <;> cases ipv6 <;> rfl
        · cases ipv4 <;> cases ipv6 <;> rfl
  · rw [handleLayer_of_not_accepted env r _ ipv4 ipv6 w hacc] at h
    simp at h

/-- C7: for a frame that carries a TCP layer and a UDP layer, both lookups of the loop
body find a layer, and the body calls `handleLayer` once, on the first TCP layer of the
frame; the outcome is the one for the frame with its UDP layers taken out, and the ports
of a record it produces are parsed from the port texts of that TCP layer. -/
theorem Start_body_tcp_over_udp {σ : Type} (env : Env) (r : RTP σ)
    (packet : gopacket.Packet) (w : World σ)
    (htcp : ∃ l ∈ packet.layers, l.hasType .LayerTypeTCP = true)
    (hudp : ∃ l ∈ packet.layers, l.hasType .LayerTypeUDP = true) :
    ∃ (tcp : layers.TCP) (udp : layers.UDP), gopacket.Layer.TCP tcp ∈ packet.layers ∧
      packet.Layer .LayerTypeTCP = some (.TCP tcp) ∧
      packet.Layer .LayerTypeUDP = some (.UDP udp) ∧
      RTP.Start.body env r packet w
        = r.handleLayer env (.TCP tcp) (RTP.Start.ipv4 packet) (RTP.Start.ipv6 packet) w ∧
      RTP.Start.body env r
          ⟨packet.layers.filter (fun l => !l.hasType .LayerTypeUDP)⟩ w
        = RTP.Start.body env r packet w ∧
      ∀ pack, (RTP.Start.body env r packet w).1.created = w.created ++ [pack] →
        ∃ sp dp : Int, strconv.Atoi (env.tcpPortString tcp.SrcPort) = .ok sp ∧
          strconv.Atoi (env.tcpPortString tcp.DstPort) = .ok dp ∧
          pack.SrcPort = uint16 sp ∧ pack.DstPort = uint16 dp := by
  obtain ⟨tcp, hmem, hfind⟩ := Layer_tcp_of_mem packet htcp
  obtain ⟨udp, _, hfindu⟩ := Layer_udp_of_mem packet hudp
  have hbody : RTP.Start.body env r packet w
      = r.handleLayer env (.TCP tcp) (RTP.Start.ipv4 packet) (RTP.Start.ipv6 packet) w := by
    simp only [RTP.Start.body, hfind]
  refine ⟨tcp, udp, hmem, hfind, hfindu, hbody, ?_, ?_⟩
  · have h1 := find_hasType_filter_udp packet.layers .LayerTypeTCP (by decide)
    have h4 := find_hasType_filter_udp packet.layers .LayerTypeIPv4 (by decide)
    have h6 := find_hasType_filter_udp packet.layers .LayerTypeIPv6 (by decide)
    rw [hbody]
    simp only [RTP.Start.body, RTP.Start.ipv4, RTP.Start.ipv6, gopacket.Packet.Layer, h1, h4,
      h6]
    have hfind2 : packet.layers.find? (fun l => l.hasType .LayerTypeTCP) = some (.TCP tcp) :=
      hfind
    simp only [hfind2]
  · intro pack hpack
    rw [hbody] at hpack
    exact handleLayer_tcp_ports env r tcp _ _ w pack hpack

/-- Witness of C7: the frame `bothFrame`, whose UDP layer (ports 40004, 40002) comes
before its TCP layer (ports 40002, 40004); the record has the TCP ports. -/
theorem Start_body_tcp_over_udp_witness :
    (∃ (tcp : layers.TCP) (udp : layers.UDP), gopacket.Layer.TCP tcp ∈ bothFrame.layers ∧
      bothFrame.Layer .LayerTypeTCP = some (.TCP tcp) ∧
      bothFrame.Layer .LayerTypeUDP = some (.UDP udp) ∧
      RTP.Start.body sampleEnv acceptAll bothFrame World.start
        = acceptAll.handleLayer sampleEnv (.TCP tcp) (RTP.Start.ipv4 bothFrame)
            (RTP.Start.ipv6 bothFrame) World.start ∧
      RTP.Start.body sampleEnv acceptAll
          ⟨bothFrame.layers.filter (fun l => !l.hasType .LayerTypeUDP)⟩ World.start
        = RTP.Start.body sampleEnv acceptAll bothFrame World.start ∧
      ∀ pack, (RTP.Start.body sampleEnv acceptAll bothFrame World.start).1.created
          = World.start.created ++ [pack] →
        ∃ sp dp : Int, strconv.Atoi (sampleEnv.tcpPortString tcp.SrcPort) = .ok sp ∧
          strconv.Atoi (sampleEnv.tcpPortString tcp.DstPort) = .ok dp ∧
          pack.SrcPort = uint16 sp ∧ pack.DstPort = uint16 dp) ∧
    (RTP.Start.body sampleEnv acceptAll bothFrame World.start).1.created.map
        (fun pack => (pack.SrcPort, pack.DstPort)) = [(40002, 40004)] :=
  ⟨Start_body_tcp_over_udp sampleEnv acceptAll bothFrame World.start
      ⟨.TCP ⟨40002, 40004, rtpBytes⟩, by decide, by rfl⟩
      ⟨.UDP ⟨40004, 40002, rtpBytes⟩, by decide, by rfl⟩,
    by rfl⟩

/-- The loop body hands at most one record to storage and does not touch the capture
handle. -/
theorem Start_body_effects {σ : Type} (env : Env) (r : RTP σ) (packet : gopacket.Packet)
    (w : World σ) :
    ((RTP.Start.body env r packet w).1.created = w.created ∨
      ∃ pack, (RTP.Start.body env r packet w).1.created = w.created ++ [pack]) ∧
    (RTP.Start.body env r packet w).1.handleOps = w.handleOps := by
  unfold RTP.Start.body
  cases packet.Layer .LayerTypeTCP with
  | some tcp => exact handleLayer_effects env r tcp _ _ w
  | none =>
    cases packet.Layer .LayerTypeUDP with
    | some udp => exact handleLayer_effects env r udp _ _ w
    | none => exact ⟨Or.inl rfl, rfl⟩

/-- The loop over a list of packets followed by more packets: the second part runs only
when the first part ended without error. -/
theorem Start_loop_append {σ : Type} (env : Env) (r : RTP σ)
    (pre rest : List gopacket.Packet) (w : World σ) :
    RTP.Start.loop env r (pre ++ rest) w =
      match RTP.Start.loop env r pre w with
      | (w1, some err) => (w1, some err)
      | (w1, none) => RTP.Start.loop env r rest w1 := by
  induction pre generalizing w with
  | nil => rfl
  | cons packet pre ih =>
    simp only [List.cons_append, RTP.Start.loop]
    cases hb : RTP.Start.body env r packet w with
    | mk w1 oe =>
      cases oe with
      | some err => rfl
      | none => exact ih w1

/-- The loop does not touch the capture handle. -/
theorem Start_loop_handleOps {σ : Type} (env : Env) (r : RTP σ)
    (packets : List gopacket.Packet) (w : World σ) :
    (RTP.Start.loop env r packets w).1.handleOps = w.handleOps := by
  induction packets generalizing w with
  | nil => rfl
  | cons packet rest ih =>
    have hb := (Start_body_effects env r packet w).2
    simp only [RTP.Start.loop]
    cases hbody : RTP.Start.body env r packet w with
    | mk w1 oe =>
      rw [hbody] at hb
      cases oe with
      | some err => exact hb
      | none => exact (ih w1).trans hb

/-- C8: when the handle opens, the frames `pre` are processed without error and the next
frame `f` yields the error `e`, `Start` returns exactly `e` in the world reached right
after `f`, whatever frames `post` follow: the frames after `f` are not processed, and
during `f` storage was called at most once, so nothing is retried. -/
theorem Start_stops_at_first_error {σ : Type} (env : Env) (r : RTP σ) (device : String)
    (pre post : List gopacket.Packet) (f : gopacket.Packet) (w w1 w2 : World σ) (e : Error)
    (hopen : env.OpenLive device = none)
    (hpre : RTP.Start.loop env r pre { w with handleOps := w.handleOps ++ [HandleOp.opened] }
      = (w1, none))
    (hf : RTP.Start.body env r f w1 = (w2, some e)) :
    r.Start env device (pre ++ f :: post) w = (w2, some e) ∧
    r.Start env device (pre ++ f :: post) w = r.Start env device (pre ++ [f]) w ∧
    (w2.created = w1.created ∨ ∃ pack, w2.created = w1.created ++ [pack]) := by
  have key : ∀ rest : List gopacket.Packet,
      r.Start env device (pre ++ f :: rest) w = (w2, some e) := by
    intro rest
    simp only [RTP.Start, hopen, Start_loop_append, hpre, RTP.Start.loop, hf]
  refine ⟨key post, (key post).trans (key []).symm, ?_⟩
  have hb := (Start_body_effects env r f w1).1
  rw [hf] at hb
  exact hb

/-- Witness of C8: a frame without transport layer, then an accepted frame that storage
refuses, then one more accepted frame; storage is called once. -/
theorem Start_stops_at_first_error_witness :
    (refuseAll.Start sampleEnv "eth0" ([plainFrame] ++ udpFrame :: [udpFrame]) World.start).2
      = some (.external "storage down") ∧
    (refuseAll.Start sampleEnv "eth0" ([plainFrame] ++ udpFrame :: [udpFrame])
      World.start).1.created.length = 1 ∧
    refuseAll.Start sampleEnv "eth0" ([plainFrame] ++ udpFrame :: [udpFrame]) World.start
      = refuseAll.Start sampleEnv "eth0" ([plainFrame] ++ [udpFrame]) World.start := by
  have h := Start_stops_at_first_error sampleEnv refuseAll "eth0" [plainFrame] [udpFrame]
    udpFrame World.start { World.start with handleOps := [HandleOp.opened] }
    (RTP.Start.body sampleEnv refuseAll udpFrame
      { World.start with handleOps := [HandleOp.opened] }).1
    (.external "storage down") (by rfl) (by rfl) (by rfl)
  exact ⟨by rw [h.1], by rw [h.1]; rfl, h.2.1⟩

/-- C10 as stated fails: on a run that stops on a storage error, on a run that stops on
a port extraction error and on a run whose frame stream ends normally, the handle was
opened and `Start` has released it zero times, not once. -/
theorem Start_leaves_handle_open :
    ((refuseAll.Start sampleEnv "eth0" [udpFrame] World.start).2
        = some (.external "storage down") ∧
      (refuseAll.Start sampleEnv "eth0" [udpFrame] World.start).1.handleOps
        = [HandleOp.opened]) ∧
    ((acceptAll.Start sampleEnv "eth0" [namedFrame] World.start).2
        = some (.numError "Atoi" "5004(avt-profile-1)" .invalid) ∧
      (acceptAll.Start sampleEnv "eth0" [namedFrame] World.start).1.handleOps
        = [HandleOp.opened]) ∧
    ((acceptAll.Start sampleEnv "eth0" [udpFrame] World.start).2 = none ∧
      (acceptAll.Start sampleEnv "eth0" [udpFrame] World.start).1.handleOps
        = [HandleOp.opened]) ∧
    [HandleOp.opened].count HandleOp.released = 0 :=
  ⟨⟨by rfl, by rfl⟩, ⟨by rfl, by rfl⟩, ⟨by rfl, by rfl⟩, by decide⟩

/-- C10, amended: on every run of `Start` in which the capture handle was opened, `Start`
acquires the handle once and never releases it: when `Start` returns, after a normal end
of the frame stream or after an error, it has released the handle zero times. -/
theorem Start_never_releases {σ : Type} (env : Env) (r : RTP σ) (device : String)
    (packets : List gopacket.Packet) (w : World σ)
    (hopen : env.OpenLive device = none) :
    (r.Start env device packets w).1.handleOps = w.handleOps ++ [HandleOp.opened] ∧
    (r.Start env device packets w).1.handleOps.count HandleOp.released
      = w.handleOps.count HandleOp.released := by
  have h : (r.Start env device packets w).1.handleOps
      = w.handleOps ++ [HandleOp.opened] := by
    simp only [RTP.Start, hopen]
    exact Start_loop_handleOps env r packets _
  refine ⟨h, ?_⟩
  rw [h]
  simp

/-- Witness of C10: three frames, the second of which storage refuses. -/
theorem Start_never_releases_witness :
    sampleEnv.OpenLive "eth0" = none ∧
    (refuseAll.Start sampleEnv "eth0" [plainFrame, udpFrame, udpFrame] World.start).1.handleOps
      = World.start.handleOps ++ [HandleOp.opened] ∧
    (refuseAll.Start sampleEnv "eth0" [plainFrame, udpFrame, udpFrame]
        World.start).1.handleOps.count HandleOp.released
      = World.start.handleOps.count HandleOp.released :=
  ⟨rfl, Start_never_releases sampleEnv refuseAll "eth0" [plainFrame, udpFrame, udpFrame]
    World.start rfl⟩

/-! ## Time stamps (C9) -/

/-- C9 as stated fails: with a clock that advances by one tick at every read, the record
that `handleLayer` hands to storage has `CreatedAt` 1000 and `UpdatedAt` 1001. -/
theorem handleLayer_two_clock_reads :
    (acceptAll.handleLayer sampleEnv (.UDP ⟨40002, 40004, rtpBytes⟩) (some ip4) none
        World.start).1.created.map
        (fun pack => (pack.StandardTime.CreatedAt, pack.StandardTime.UpdatedAt))
      = [(1000, 1001)] ∧
    (1000 : Nat) ≠ 1001 :=
  ⟨by rfl, by decide⟩

/-- C9, amended: for every record that `handleLayer` hands to storage, `CreatedAt` is the
instant of one clock read made at assembly and `UpdatedAt` the instant of the read that
follows it; the two fields are equal whenever the clock returns the same instant at
these two reads. -/
theorem handleLayer_timestamps {σ : Type} (env : Env) (r : RTP σ)
    (layer : gopacket.Layer) (ipv4 : Option layers.IPv4) (ipv6 : Option layers.IPv6)
    (w : World σ) (pack : storage.RtpPacket)
    (h : (r.handleLayer env layer ipv4 ipv6 w).1.created = w.created ++ [pack]) :
    pack.StandardTime.CreatedAt = env.clock w.clockReads ∧
    pack.StandardTime.UpdatedAt = env.clock (w.clockReads + 1) ∧
    (r.handleLayer env layer ipv4 ipv6 w).1.clockReads = w.clockReads + 2 ∧
    (env.clock w.clockReads = env.clock (w.clockReads + 1) →
      pack.StandardTime.CreatedAt = pack.StandardTime.UpdatedAt) := by
  by_cases hacc : (RTP.decoded env layer).Version = 2 ∧
      (RTP.decoded env layer).PayloadType ≥ 96 ∧ (RTP.decoded env layer).PayloadType ≤ 100
  · cases ht : ({} : rtpPacket).UnmarshalTransport env layer with
    | mk rtpp oe =>
      cases oe with
      | none =>
        rw [handleLayer_of_accepted env r layer ipv4 ipv6 w rtpp hacc ht] at h ⊢
        simp only [List.append_cancel_left_eq, List.cons.injEq, and_true] at h
        subst h
        exact ⟨rfl, rfl, rfl, fun hc => hc⟩
      | some err =>
        rw [handleLayer_of_port_error env r layer ipv4 ipv6 w rtpp err hacc ht] at h
        simp at h
  · rw [handleLayer_of_not_accepted env r layer ipv4 ipv6 w hacc] at h
    simp at h

/-- Witness of C9: the accepted UDP frame under the advancing clock of `sampleEnv`. -/
theorem handleLayer_timestamps_witness :
    ∃ pack : storage.RtpPacket,
      (acceptAll.handleLayer sampleEnv (.UDP ⟨40002, 40004, rtpBytes⟩) (some ip4) none
        World.start).1.created = World.start.created ++ [pack] ∧
      pack.StandardTime.CreatedAt = 1000 ∧ pack.StandardTime.UpdatedAt = 1001 := by
  refine ⟨(RTP.pack sampleEnv (RTP.assembled sampleEnv (.UDP ⟨40002, 40004, rtpBytes⟩)
    ⟨40004, 40002, "", "", 0, 0, false, 0⟩ (some ip4) none) World.start), by rfl, ?_⟩
  have h := handleLayer_timestamps sampleEnv acceptAll (.UDP ⟨40002, 40004, rtpBytes⟩)
    (some ip4) none World.start _ (by rfl)
  exact ⟨h.1, h.2.1⟩
